import Mathlib

/-!
Verification development for the RINEX 3 → RINEX 2.11 transcoder of
`pygamit_bridge/converter.py`.

The Python source is shallowly embedded: Python `str` values are modelled as
`List Char` (called `Str` below), Python `int` as `Int`, Python `float` as an
exact rational `ℚ` (the converter only ever parses decimal text and
re-serialises it with fixed precision, so rationals with decimal round-half-even
are used; binary-double artefacts are outside the model), Python exceptions as
`Option` (`none` = an uncaught exception escapes).  Files are modelled as the
list of their physical lines as produced by `readlines()` (each line keeps its
trailing newline) and output files as the concatenation of all `write` calls.
-/

/-- Python strings are modelled as lists of characters. -/
abbrev Str := List Char

/-- Characters treated as whitespace by Python's `str.strip`/`str.split`
(ASCII subset, which covers all inputs the converter slices). -/
def isPyWs (c : Char) : Bool :=
  c == ' ' || c == '\t' || c == '\n' || c == '\r' || c == '\x0b' || c == '\x0c'

/-- Python slicing `s[a:b]` with non-negative bounds (all slices in
`converter.py` use non-negative literal bounds). -/
def pySlice (s : Str) (a b : Nat) : Str := (s.drop a).take (b - a)

/-- Python `s.lstrip()` (whitespace variant). -/
def lstripWs (s : Str) : Str := s.dropWhile isPyWs

/-- Python `s.rstrip()` (whitespace variant), as used on observation fields. -/
def rstripWs (s : Str) : Str := (s.reverse.dropWhile isPyWs).reverse

/-- Python `s.strip()` (whitespace variant). -/
def stripWs (s : Str) : Str := rstripWs (lstripWs s)

/-- Helper used by `splitWs`: walks the characters keeping the current
(reversed) token, mirroring the semantics of Python's `str.split()`:
split on whitespace runs, discard empty tokens. -/
def splitWsAux : Str → Str → List String
  | [], cur => if cur.isEmpty then [] else [String.mk cur.reverse]
  | c :: cs, cur =>
    if isPyWs c then
      if cur.isEmpty then splitWsAux cs []
      else String.mk cur.reverse :: splitWsAux cs []
    else splitWsAux cs (c :: cur)

/-- Python `s.split()` (no separator argument). -/
def splitWs (s : Str) : List String := splitWsAux s []

/-- Python `l[:n]` for an `int` bound `n` that may be negative
(a negative bound counts from the end of the list, clamping at zero). -/
def pyTakeInt (n : Int) (l : List α) : List α :=
  if 0 ≤ n then l.take n.toNat else l.take ((l.length : Int) + n).toNat

/-- Right-justification in a field of `w` characters padded with `c`
(Python `f"{s:>w}"`; no truncation when the text is longer). -/
def rjust (w : Nat) (c : Char) (s : Str) : Str :=
  List.replicate (w - s.length) c ++ s

/-- Left-justification in a field of `w` characters padded with `c`
(Python `f"{s:<w}"` / `str.ljust`; no truncation when the text is longer). -/
def ljust (w : Nat) (c : Char) (s : Str) : Str :=
  s ++ List.replicate (w - s.length) c

/-- Accumulates the value of a digit string; fails on any non-digit. -/
def digitsValAux (acc : Nat) : Str → Option Nat
  | [] => some acc
  | c :: cs =>
    if c.isDigit then digitsValAux (acc * 10 + (c.toNat - 48)) cs else none

/-- Python `int(s)` (base 10): optional surrounding whitespace, optional
sign, then a non-empty run of digits; anything else raises, modelled `none`. -/
def parseInt (s : Str) : Option Int :=
  let t := stripWs s
  match t with
  | '+' :: r => if r.isEmpty then none else (digitsValAux 0 r).map Int.ofNat
  | '-' :: r => if r.isEmpty then none else (digitsValAux 0 r).map (fun n => -(n : Int))
  | _ => if t.isEmpty then none else (digitsValAux 0 t).map Int.ofNat

/-- Ten to an integer power, as a rational. -/
def powTenZ (e : Int) : ℚ :=
  if 0 ≤ e then ((10 : ℚ) ^ e.toNat) else 1 / ((10 : ℚ) ^ (-e).toNat)

/-- An optionally signed non-empty digit run (the payload of a float
exponent; no interior whitespace allowed). -/
def parseExpDigits (s : Str) : Option Int :=
  match s with
  | '+' :: r => if r.isEmpty then none else (digitsValAux 0 r).map Int.ofNat
  | '-' :: r => if r.isEmpty then none else (digitsValAux 0 r).map (fun n => -(n : Int))
  | _ => if s.isEmpty then none else (digitsValAux 0 s).map Int.ofNat

/-- Parses the tail of a float literal after the mantissa: either nothing
(exponent 0) or `e`/`E` followed by a signed digit run, consuming the whole
remainder. -/
def parseExpTail (s : Str) : Option Int :=
  match s with
  | [] => some 0
  | 'e' :: r => parseExpDigits r
  | 'E' :: r => parseExpDigits r
  | _ => none

/-- Python `float(s)` for finite decimal literals: optional surrounding
whitespace, optional sign, digits with an optional decimal point (at least one
digit overall) and an optional `e`/`E` exponent.  The value is kept as an
exact rational.  (`inf`/`nan` and digit-group underscores are outside the
model; the converter's inputs are fixed-width decimal fields.) -/
def parseFloat (s : Str) : Option ℚ :=
  let t := stripWs s
  let sgn : ℚ := match t with | '-' :: _ => -1 | _ => 1
  let t1 : Str := match t with | '-' :: r => r | '+' :: r => r | _ => t
  let ip := t1.takeWhile Char.isDigit
  let t2 := t1.dropWhile Char.isDigit
  let ipVal : Nat := (digitsValAux 0 ip).getD 0
  match t2 with
  | '.' :: r =>
    let fp := r.takeWhile Char.isDigit
    let t3 := r.dropWhile Char.isDigit
    if ip.isEmpty && fp.isEmpty then none
    else
      let fpVal : Nat := (digitsValAux 0 fp).getD 0
      match parseExpTail t3 with
      | some e => some (sgn * ((ipVal : ℚ) + (fpVal : ℚ) / ((10 : ℚ) ^ fp.length)) * powTenZ e)
      | none => none
  | _ =>
    if ip.isEmpty then none
    else
      match parseExpTail t2 with
      | some e => some (sgn * (ipVal : ℚ) * powTenZ e)
      | none => none

/-- Python `f"{i:wd}"`: decimal rendering of an integer right-justified with
spaces in a field of width `w` (no truncation when wider). -/
def fmtInt (w : Nat) (i : Int) : Str := rjust w ' ' (toString i).data

/-- Nearest integer with ties to even, applied to the exact rational value
(models CPython's fixed-precision float formatting at the decimal level). -/
def roundHalfEven (x : ℚ) : Int :=
  let f : Int := x.floor
  let r : ℚ := x - (f : ℚ)
  if r < 1 / 2 then f
  else if 1 / 2 < r then f + 1
  else if f % 2 = 0 then f else f + 1

/-- Python `f"{x:w.pf}"` (with `p ≥ 1`): fixed-point rendering with `p`
decimals, right-justified with spaces in a field of width `w`.  A negative
value that rounds to zero keeps its minus sign, as CPython does. -/
def formatFixed (w p : Nat) (x : ℚ) : Str :=
  let scaled : Int := roundHalfEven (x * ((10 : ℚ) ^ p))
  let ds0 : Str := (Nat.repr scaled.natAbs).data
  let ds : Str :=
    if ds0.length < p + 1 then List.replicate (p + 1 - ds0.length) '0' ++ ds0 else ds0
  let ip : Str := ds.take (ds.length - p)
  let fp : Str := ds.drop (ds.length - p)
  rjust w ' ' ((if x < 0 then ['-'] else []) ++ ip ++ ['.'] ++ fp)

/-- The `OBS_MAPPING` dict of `converter.py`: RINEX3 3-character observation
codes to RINEX2 2-character codes, transcribed entry for entry. -/
def OBS_MAPPING : List (String × String) :=
  [("C1C", "C1"), ("C1S", "C1"), ("C1L", "C1"), ("C1X", "C1"),
   ("C1P", "P1"), ("C1W", "P1"),
   ("L1C", "L1"), ("L1S", "L1"), ("L1L", "L1"), ("L1X", "L1"),
   ("L1P", "L1"), ("L1W", "L1"),
   ("D1C", "D1"), ("D1S", "D1"), ("D1L", "D1"), ("D1X", "D1"),
   ("S1C", "S1"), ("S1S", "S1"), ("S1L", "S1"), ("S1X", "S1"),
   ("C2C", "C2"), ("C2S", "C2"), ("C2L", "C2"), ("C2X", "C2"),
   ("C2P", "P2"), ("C2W", "P2"),
   ("L2C", "L2"), ("L2S", "L2"), ("L2L", "L2"), ("L2X", "L2"),
   ("L2P", "L2"), ("L2W", "L2"),
   ("D2C", "D2"), ("D2S", "D2"), ("D2L", "D2"), ("D2X", "D2"),
   ("S2C", "S2"), ("S2S", "S2"), ("S2L", "S2"), ("S2X", "S2"),
   ("C5I", "C5"), ("C5Q", "C5"), ("C5X", "C5"),
   ("L5I", "L5"), ("L5Q", "L5"), ("L5X", "L5"),
   ("D5I", "D5"), ("D5Q", "D5"), ("D5X", "D5"),
   ("S5I", "S5"), ("S5Q", "S5"), ("S5X", "S5")]

/-- Python `OBS_MAPPING.get(t, None)`. -/
def obsMapping (t : String) : Option String := OBS_MAPPING.lookup t

/-- The header dictionary built by `_parse_rinex3_header`, one field per key
(nested dicts flattened into prefixed fields). -/
structure Header where
  version : String
  htype : String
  system : String
  marker_name : String
  marker_number : String
  observer : String
  agency : String
  rec_serial : String
  rec_type : String
  rec_version : String
  ant_serial : String
  ant_type : String
  ant_delta : ℚ × ℚ × ℚ
  approx_pos : ℚ × ℚ × ℚ
  obs_types : List (String × List String)
  interval : ℚ
  time_first : String
  time_last : String
  header_end_line : Nat
deriving DecidableEq

/-- The default header of `_parse_rinex3_header` before any line is
dispatched. -/
def initHeader : Header :=
  { version := "3.04", htype := "O", system := "M",
    marker_name := "", marker_number := "", observer := "", agency := "",
    rec_serial := "", rec_type := "", rec_version := "",
    ant_serial := "", ant_type := "", ant_delta := (0, 0, 0),
    approx_pos := (0, 0, 0), obs_types := [], interval := 30,
    time_first := "", time_last := "", header_end_line := 0 }

/-- Python dict assignment `d[k] = v` for `obs_types`, modelled by consing and
reading the most recent binding back with `dictGet`. -/
def dictInsert (k : String) (v : List String) (d : List (String × List String)) :
    List (String × List String) := (k, v) :: d

/-- Python `d.get(k, [])` for `obs_types` under the `dictInsert` encoding. -/
def dictGet (d : List (String × List String)) (k : String) : List String :=
  ((d.find? (fun p => p.1 == k)).map (·.2)).getD []

/-- `line[60:].strip() if len(line) > 60 else ''`: the label zone of a header
line. -/
def labelOf (l : Str) : String :=
  if 60 < l.length then String.mk (stripWs (l.drop 60)) else ""

/-- The single-label branches of `_parse_rinex3_header`'s dispatch chain
(everything except the observation-type declaration and the terminator, which
control the loop itself).  Malformed numeric fields keep the prior value, as
the `try/except ValueError: pass` blocks do; a partial failure inside one
`try` block (e.g. `x` parses but `y` does not) assigns nothing, since the
tuple assignment in the source happens after all three `float` calls. -/
def dispatchSimple (line : Str) (lbl : String) (h : Header) : Header :=
  if lbl = "RINEX VERSION / TYPE" then
    { h with version := String.mk (stripWs (pySlice line 0 9)),
             htype := String.mk (stripWs (pySlice line 20 21)),
             system := String.mk (stripWs (pySlice line 40 41)) }
  else if lbl = "MARKER NAME" then
    { h with marker_name := String.mk (stripWs (pySlice line 0 60)) }
  else if lbl = "MARKER NUMBER" then
    { h with marker_number := String.mk (stripWs (pySlice line 0 20)) }
  else if lbl = "OBSERVER / AGENCY" then
    { h with observer := String.mk (stripWs (pySlice line 0 20)),
             agency := String.mk (stripWs (pySlice line 20 40)) }
  else if lbl = "REC # / TYPE / VERS" then
    { h with rec_serial := String.mk (stripWs (pySlice line 0 20)),
             rec_type := String.mk (stripWs (pySlice line 20 40)),
             rec_version := String.mk (stripWs (pySlice line 40 60)) }
  else if lbl = "ANT # / TYPE" then
    { h with ant_serial := String.mk (stripWs (pySlice line 0 20)),
             ant_type := String.mk (stripWs (pySlice line 20 40)) }
  else if lbl = "APPROX POSITION XYZ" then
    match parseFloat (pySlice line 0 14), parseFloat (pySlice line 14 28),
          parseFloat (pySlice line 28 42) with
    | some x, some y, some z => { h with approx_pos := (x, y, z) }
    | _, _, _ => h
  else if lbl = "ANTENNA: DELTA H/E/N" then
    match parseFloat (pySlice line 0 14), parseFloat (pySlice line 14 28),
          parseFloat (pySlice line 28 42) with
    | some dh, some de, some dn => { h with ant_delta := (dh, de, dn) }
    | _, _, _ => h
  else if lbl = "INTERVAL" then
    match parseFloat (pySlice line 0 10) with
    | some v => { h with interval := v }
    | none => h
  else if lbl = "TIME OF FIRST OBS" then
    { h with time_first := String.mk (stripWs (pySlice line 0 60)) }
  else if lbl = "TIME OF LAST OBS" then
    { h with time_last := String.mk (stripWs (pySlice line 0 60)) }
  else h

/-- The continuation scan inside the `SYS / # / OBS TYPES` branch: while the
declared count is not met and lines remain, consume the next line; a line with
the same label contributes its tokens, a differently labelled line stops the
scan but has already been consumed.  Returns the accumulated tokens and how
many lines were consumed. -/
def scanCont (numObs : Int) : List String → List Str → List String × Nat
  | toks, [] => (toks, 0)
  | toks, l :: ls =>
    if (toks.length : Int) < numObs then
      if labelOf l = "SYS / # / OBS TYPES" then
        let r := scanCont numObs (toks ++ splitWs (pySlice l 7 60)) ls
        (r.1, r.2 + 1)
      else (toks, 1)
    else (toks, 0)

/-- The `while i < len(lines)` loop of `_parse_rinex3_header`.  `fuel` is an
upper bound on the number of iterations (each iteration consumes at least one
line, so `lines.length` suffices; exhaustion behaves like end of input).
`none` models the uncaught `ValueError` raised by the bare
`int(line[3:6].strip())` on an observation-type declaration whose count field
is not numeric. -/
def parseHeaderLoop : Nat → List Str → Nat → Header → Option Header
  | 0, _, _, acc => some acc
  | _ + 1, [], _, acc => some acc
  | fuel + 1, line :: rest, i, acc =>
    let lbl := labelOf line
    if lbl = "SYS / # / OBS TYPES" then
      match parseInt (stripWs (pySlice line 3 6)) with
      | none => none
      | some n =>
        let sysCode := String.mk (pySlice line 0 1)
        let scan := scanCont n (splitWs (pySlice line 7 60)) rest
        parseHeaderLoop fuel (rest.drop scan.2) (i + 1 + scan.2)
          { acc with obs_types := dictInsert sysCode (pyTakeInt n scan.1) acc.obs_types }
    else if lbl = "END OF HEADER" then some { acc with header_end_line := i }
    else parseHeaderLoop fuel rest (i + 1) (dispatchSimple line lbl acc)

/-- `_parse_rinex3_header(lines)`. -/
def parseRinex3Header (lines : List Str) : Option Header :=
  parseHeaderLoop lines.length lines 0 initHeader

/-- `_build_obs_type_mapping`'s loop body: `rnx2_types`/`seen` accumulation.
The Python guard `if rnx2_type and rnx2_type not in seen` tests truthiness of
the looked-up value; every value in `OBS_MAPPING` is a non-empty string, so
truthiness coincides with `some`. -/
def buildStep (acc : List String × List String) (t : String) : List String × List String :=
  match obsMapping t with
  | some r => if r ∈ acc.2 then acc else (acc.1 ++ [r], r :: acc.2)
  | none => acc

/-- `_build_obs_type_mapping(header)`: from the GPS code list, the ordered
deduplicated RINEX2 type list and the per-index mapping
(`mapping[idx] = OBS_MAPPING.get(gps_types[idx], None)`). -/
def buildObsTypeMapping (gpsTypes : List String) : List String × List (Option String) :=
  ((gpsTypes.foldl buildStep ([], [])).1, gpsTypes.map obsMapping)

/-- `header['obs_types'].get('G', [])`. -/
def gpsCodes (h : Header) : List String := dictGet h.obs_types "G"

/-- Keep the first occurrence of each element not in `seen`, dropping later
duplicates (the ordered-insert-if-absent discipline of the source). -/
def dedupFirstExcl (seen : List String) : List String → List String
  | [] => []
  | a :: l => if a ∈ seen then dedupFirstExcl seen l else a :: dedupFirstExcl (a :: seen) l

/-- First-occurrence deduplication. -/
def dedupFirst (l : List String) : List String := dedupFirstExcl [] l

/-- One `# / TYPES OF OBSERV` physical line: count-or-blank zone, then each
code right-justified in a 6-column slot, left-justified to 60 columns, then
the label (one `f.write` call, so a trailing newline). -/
def obsTypesLine (pre : Str) (codes : List String) : Str :=
  ljust 60 ' ' (codes.foldl (fun a c => a ++ rjust 6 ' ' c.data) pre)
    ++ "# / TYPES OF OBSERV\n".data

/-- The `for line_idx in range(lines_needed)` loop of `_write_rinex2_header`,
a chunk at a time: `lines_needed = (num + 8) // 9` lines, line `i` carrying
codes `9*i .. min(9*i+9, num)`, the first line with the count in columns 0-5
and continuation lines with a blank count zone. -/
def obsTypesAux (pre : Str) : List String → List Str
  | [] => []
  | c :: cs => obsTypesLine pre (c :: List.take 8 cs) :: obsTypesAux (List.replicate 6 ' ') (List.drop 8 cs)
termination_by ts => ts.length
decreasing_by simp [List.length_drop]; omega

/-- All `# / TYPES OF OBSERV` lines for a RINEX2 type list (none when the
list is empty, since `lines_needed = (0 + 8) // 9 = 0`). -/
def obsTypesLines (ts : List String) : List Str :=
  obsTypesAux (fmtInt 6 (ts.length : Int)) ts

/-- `_write_rinex2_header(f, header, rnx2_types)` as the list of strings
passed to `f.write`, in order. -/
def writeRinex2Header (h : Header) (ts : List String) : List Str :=
  ["     2.11           OBSERVATION DATA    ".data ++ ljust 20 ' ' "G".data
     ++ "RINEX VERSION / TYPE\n".data,
   ljust 20 ' ' "pygamit-bridge".data ++ List.replicate 40 ' '
     ++ "PGM / RUN BY / DATE\n".data,
   ljust 60 ' ' h.marker_name.data ++ "MARKER NAME\n".data]
  ++ (if h.marker_number = "" then []
      else [ljust 60 ' ' h.marker_number.data ++ "MARKER NUMBER\n".data])
  ++ [ljust 20 ' ' h.observer.data ++ ljust 40 ' ' h.agency.data
        ++ "OBSERVER / AGENCY\n".data,
      ljust 20 ' ' h.rec_serial.data ++ ljust 20 ' ' h.rec_type.data
        ++ ljust 20 ' ' h.rec_version.data ++ "REC # / TYPE / VERS\n".data,
      ljust 20 ' ' h.ant_serial.data ++ ljust 20 ' ' h.ant_type.data
        ++ List.replicate 20 ' ' ++ "ANT # / TYPE\n".data,
      formatFixed 14 4 h.approx_pos.1 ++ formatFixed 14 4 h.approx_pos.2.1
        ++ formatFixed 14 4 h.approx_pos.2.2 ++ List.replicate 18 ' '
        ++ "APPROX POSITION XYZ\n".data,
      formatFixed 14 4 h.ant_delta.1 ++ formatFixed 14 4 h.ant_delta.2.1
        ++ formatFixed 14 4 h.ant_delta.2.2 ++ List.replicate 18 ' '
        ++ "ANTENNA: DELTA H/E/N\n".data,
      "     1     1".data ++ List.replicate 48 ' '
        ++ "WAVELENGTH FACT L1/2\n".data]
  ++ obsTypesLines ts
  ++ [formatFixed 10 3 h.interval ++ List.replicate 50 ' ' ++ "INTERVAL\n".data]
  ++ (if h.time_first = "" then []
      else [ljust 60 ' ' h.time_first.data ++ "TIME OF FIRST OBS\n".data])
  ++ (if h.time_last = "" then []
      else [ljust 60 ' ' h.time_last.data ++ "TIME OF LAST OBS\n".data])
  ++ [List.replicate 60 ' ' ++ "END OF HEADER\n".data]

/-- `line.startswith('>')`. -/
def startsGt (l : Str) : Bool :=
  match l with
  | '>' :: _ => true
  | _ => false

/-- `s.startswith('G')`. -/
def startsWithG (s : Str) : Bool :=
  match s with
  | 'G' :: _ => true
  | _ => false

/-- The version test of the entry point:
`lines[0][0:9].strip().startswith('3')`. -/
def versionStartsWith3 (l0 : Str) : Bool :=
  match stripWs (pySlice l0 0 9) with
  | '3' :: _ => true
  | _ => false

/-- The fields parsed from an epoch-start line in `_convert_data`. -/
structure EpochHead where
  yr : Int
  mo : Int
  dy : Int
  hr : Int
  mn : Int
  sc : ℚ
  flag : Int
  numSats : Int
deriving DecidableEq

/-- The `try` block parsing an epoch-start line; any `ValueError` (a
non-numeric slice) makes the whole line malformed (`none`) and it is
skipped. -/
def parseEpochStart (line : Str) : Option EpochHead :=
  match parseInt (pySlice line 2 6), parseInt (pySlice line 7 9),
        parseInt (pySlice line 10 12), parseInt (pySlice line 13 15),
        parseInt (pySlice line 16 18), parseFloat (pySlice line 18 29),
        parseInt (pySlice line 29 32), parseInt (pySlice line 32 35) with
  | some yr, some mo, some dy, some hr, some mn, some sc, some fl, some ns =>
    some ⟨yr, mo, dy, hr, mn, sc, fl, ns⟩
  | _, _, _, _, _, _, _, _ => none

/-- A blank 16-column observation field. -/
def blank16 : Str := List.replicate 16 ' '

/-- The `values` list extracted from one satellite record: for each declared
GPS observation type `k`, the 16-column slice starting at column `3 + 16 k`,
or a blank field when the record ends before that column. -/
def satValues (gpsTypes : List String) (satLine : Str) : List Str :=
  (List.range gpsTypes.length).map (fun k =>
    if 3 + k * 16 < satLine.length then pySlice satLine (3 + k * 16) (3 + k * 16 + 16)
    else blank16)

/-- The satellite-collection loop: the declared number of candidate lines has
already been selected by the caller; a line is retained exactly when its
stripped 3-column satellite id starts with `'G'`.  Returns the retained
`(sat_id, values)` pairs in input order (`sats` is the list of first
components; `sat_data` is the last-binding-wins lookup below). -/
def collectSats (gpsTypes : List String) (satLines : List Str) : List (Str × List Str) :=
  satLines.filterMap (fun sl =>
    let sid := stripWs (pySlice sl 0 3)
    if startsWithG sid then some (sid, satValues gpsTypes sl) else none)

/-- `sat_data[sat]` under Python dict semantics: the value of the most recent
binding of the key. -/
def lookupLastD (pairs : List (Str × List Str)) (s : Str) : List Str :=
  ((pairs.reverse.find? (fun p => p.1 == s)).map (·.2)).getD []

/-- A first source index mapping to a given target code:
`for idx, rnx3_type in enumerate(gps_types): if mapping.get(idx) == rnx2_type`. -/
def firstMappedIdx (gpsTypes : List String) (mapping : List (Option String))
    (t : String) : Option Nat :=
  (List.range gpsTypes.length).find? (fun idx => mapping.getD idx none == some t)

/-- The `rnx2_values` list for one satellite: for each target code in order,
the raw field at the first source index mapping to it (blank when the index is
out of range of `values` or when no source index maps to the code). -/
def rnx2Values (gpsTypes : List String) (mapping : List (Option String))
    (values : List Str) (rnx2Types : List String) : List Str :=
  rnx2Types.map (fun t =>
    match firstMappedIdx gpsTypes mapping t with
    | some idx => values.getD idx blank16
    | none => blank16)

/-- Formatting of one observation value into its 14+1+1 triple:
`val.rstrip()` then split into numeric part, loss-of-lock indicator and
signal-strength indicator, blank-padding short values. -/
def fmtTriple (val : Str) : Str :=
  let valStr := rstripWs val
  if 14 ≤ valStr.length then
    valStr.take 14
      ++ (if 14 < valStr.length then pySlice valStr 14 15 else [' '])
      ++ (if 15 < valStr.length then pySlice valStr 15 16 else [' '])
  else if 0 < valStr.length then rjust 14 ' ' valStr ++ [' ', ' ']
  else blank16

/-- The accumulate-and-flush loop writing a satellite's observation triples
five per physical line, the final partial line flushed when non-empty.  Since
every triple is non-empty, this is the same as writing the triples in chunks
of five (each chunk one `f.write` with a trailing newline). -/
def emitObsLines : List Str → List Str
  | [] => []
  | t :: ts => (List.foldl (· ++ ·) t (List.take 4 ts) ++ ['\n']) :: emitObsLines (List.drop 4 ts)
termination_by ts => ts.length
decreasing_by simp [List.length_drop]; omega

/-- The fixed prefix of a RINEX2 epoch header line:
`f" {yr2:2d} {mo:2d} {dy:2d} {hr:2d} {mn:2d}{sc:11.7f}  {flag:1d}{n:3d}"`
with `yr2 = yr % 100` and `n` the retained-satellite count. -/
def epochHdrBase (e : EpochHead) (n : Nat) : Str :=
  [' '] ++ fmtInt 2 (e.yr % 100) ++ [' '] ++ fmtInt 2 e.mo ++ [' '] ++ fmtInt 2 e.dy
    ++ [' '] ++ fmtInt 2 e.hr ++ [' '] ++ fmtInt 2 e.mn ++ formatFixed 11 7 e.sc
    ++ [' ', ' '] ++ fmtInt 1 e.flag ++ fmtInt 3 (n : Int)

/-- The satellite-id append loop of the epoch header: each id right-justified
in 3 columns, and after every 12th id (except the last) a newline plus 32
spaces of continuation indent. -/
def satIdsAppend (base : Str) (sats : List Str) : Str :=
  (sats.enum.foldl (fun acc p =>
    acc ++ rjust 3 ' ' p.2
      ++ (if (p.1 + 1) % 12 == 0 && p.1 + 1 < sats.length
          then '\n' :: List.replicate 32 ' ' else [])) base)

/-- Everything written for one retained epoch: the (possibly wrapped) epoch
header line, then for each retained satellite its observation lines. -/
def epochChunk (gpsTypes rnx2Types : List String) (mapping : List (Option String))
    (e : EpochHead) (pairs : List (Str × List Str)) : List Str :=
  let sats := pairs.map (·.1)
  (satIdsAppend (epochHdrBase e sats.length) sats ++ ['\n'])
    :: sats.flatMap (fun s =>
        emitObsLines ((rnx2Values gpsTypes mapping (lookupLastD pairs s) rnx2Types).map fmtTriple))

/-- `_convert_data` from the data boundary on, as the list of strings passed
to `outf.write`: scan for `'>'` epoch markers, skip unparseable epoch-start
lines, consume the declared number of candidate satellite lines, drop epochs
with no retained satellite, and emit a chunk for the others. -/
def convertData (gpsTypes rnx2Types : List String) (mapping : List (Option String)) :
    List Str → List Str
  | [] => []
  | line :: rest =>
    if startsGt line then
      match parseEpochStart line with
      | none => convertData gpsTypes rnx2Types mapping rest
      | some e =>
        let pairs := collectSats gpsTypes (rest.take e.numSats.toNat)
        if pairs = [] then convertData gpsTypes rnx2Types mapping (rest.drop e.numSats.toNat)
        else epochChunk gpsTypes rnx2Types mapping e pairs
          ++ convertData gpsTypes rnx2Types mapping (rest.drop e.numSats.toNat)
    else convertData gpsTypes rnx2Types mapping rest
termination_by ls => ls.length
decreasing_by
  all_goals simp only [List.length_drop, List.length_cons]
  all_goals omega

/-- `convert_rinex3_to_rinex2(input_file, output_file)`.  The input file is
its `readlines()` list; the result is `none` when an exception escapes
(empty input, or a non-numeric observation-type count), and otherwise
`some (returnValue, outputFileContents)` with `none` contents when no output
file is written. -/
def convertRinex3ToRinex2 (lines : List Str) : Option (Bool × Option Str) :=
  match lines with
  | [] => none
  | l0 :: _ =>
    if versionStartsWith3 l0 = false then some (true, some lines.flatten)
    else
      match parseRinex3Header lines with
      | none => none
      | some h =>
        let ts := (buildObsTypeMapping (gpsCodes h)).1
        let mp := (buildObsTypeMapping (gpsCodes h)).2
        if ts = [] then some (false, none)
        else some (true, some ((writeRinex2Header h ts).flatten
          ++ (convertData (gpsCodes h) ts mp (lines.drop (h.header_end_line + 1))).flatten))

/-- A minimal version-3 first line: no label zone, version field `3.04`. -/
def exVersion3Line : Str := "     3.04".data

/-- An observation-type declaration for GPS with one mappable code `C1C`. -/
def exSysLineC1C : Str :=
  "G    1 C1C".data ++ List.replicate 50 ' ' ++ "SYS / # / OBS TYPES".data

/-- An observation-type declaration for GPS whose single code `ZZZ` has no
entry in the translation table. -/
def exSysLineZZZ : Str :=
  "G    1 ZZZ".data ++ List.replicate 50 ' ' ++ "SYS / # / OBS TYPES".data

/-- An observation-type declaration whose count field (columns 3-6) is the
non-numeric text `XXX`. -/
def exSysLineBadCount : Str :=
  "G  XXX C1C".data ++ List.replicate 50 ' ' ++ "SYS / # / OBS TYPES".data

/-- An `INTERVAL` record whose numeric zone is malformed. -/
def exBadIntervalLine : Str :=
  "not-a-number".data ++ List.replicate 48 ' ' ++ "INTERVAL".data

/-- A version-3 file with a mappable code list and no header terminator. -/
def exNoTermInput : List Str := [exVersion3Line, exSysLineC1C]

/-- The header `exNoTermInput` parses to. -/
def exNoTermHeader : Header := { initHeader with obs_types := [("G", ["C1C"])] }

/-- A version-3 file whose observation-type count field is non-numeric. -/
def exBadCountInput : List Str := [exVersion3Line, exSysLineBadCount]

/-- A version-3 file with a malformed `INTERVAL` record and a well-formed
code declaration (and no terminator, which the code does not require). -/
def exBadIntervalInput : List Str := [exVersion3Line, exBadIntervalLine, exSysLineC1C]

/-- A version-3 file whose only GPS code has no table translation. -/
def exUnmappableInput : List Str := [exVersion3Line, exSysLineZZZ]

/-- The header `exUnmappableInput` parses to. -/
def exUnmappableHeader : Header := { initHeader with obs_types := [("G", ["ZZZ"])] }

/-- A file whose first line's version field starts with `2`. -/
def exVersion2Input : List Str := ["     2.11           OBSERVATION DATA\n".data]

/-- The RINEX2-code-position join used to describe one physical line's worth
of 3-column satellite-id slots (specification-side description of the wrapped
epoch header's line contents). -/
def satIdsJoin (sats : List Str) : Str :=
  sats.foldl (fun a s => a ++ rjust 3 ' ' s) []

/-- A concrete 23-entry code list. -/
def exCodes23 : List String := ["A01", "A02", "A03", "A04", "A05", "A06", "A07", "A08", "A09", "A10", "A11", "A12", "A13", "A14", "A15", "A16", "A17", "A18", "A19", "A20", "A21", "A22", "A23"]

/-- A concrete 25-entry satellite-id list. -/
def exSats25 : List Str := ["G01".data, "G02".data, "G03".data, "G04".data, "G05".data, "G06".data, "G07".data, "G08".data, "G09".data, "G10".data, "G11".data, "G12".data, "G13".data, "G14".data, "G15".data, "G16".data, "G17".data, "G18".data, "G19".data, "G20".data, "G21".data, "G22".data, "G23".data, "G24".data, "G25".data]

/- The Batteries rational operations are `@[irreducible]`, which blocks
`decide`-style evaluation of the embedded float semantics at concrete inputs;
restore the default reducibility for this development. -/
attribute [local semireducible] Rat.mul Rat.add Rat.sub Rat.inv

theorem dedupFirstExcl_sublist (l : List String) : ∀ seen, dedupFirstExcl seen l ⊆ l := by
  induction l with
  | nil => intro seen; simp [dedupFirstExcl]
  | cons a l ih =>
    intro seen
    by_cases h : a ∈ seen
    · simp only [dedupFirstExcl, if_pos h]
      exact (ih seen).trans (List.subset_cons_self a l)
    · simp only [dedupFirstExcl, if_neg h]
      exact List.cons_subset_cons a (ih (a :: seen))

theorem dedupFirstExcl_nodup (l : List String) :
    ∀ seen, (dedupFirstExcl seen l).Nodup ∧ ∀ a ∈ dedupFirstExcl seen l, a ∉ seen := by
  induction l with
  | nil => intro seen; simp [dedupFirstExcl]
  | cons a l ih =>
    intro seen
    by_cases h : a ∈ seen
    · simp only [dedupFirstExcl, if_pos h]
      exact ih seen
    · simp only [dedupFirstExcl, if_neg h]
      refine ⟨List.nodup_cons.mpr ⟨fun hmem => ?_, (ih (a :: seen)).1⟩, ?_⟩
      · exact ((ih (a :: seen)).2 a hmem) (List.mem_cons_self a seen)
      · intro b hb
        rcases List.mem_cons.mp hb with rfl | hb'
        · exact h
        · exact fun hbs => ((ih (a :: seen)).2 b hb') (List.mem_cons_of_mem a hbs)

theorem foldl_buildStep (l : List String) :
    ∀ ts seen : List String,
      (l.foldl buildStep (ts, seen)).1 = ts ++ dedupFirstExcl seen (l.filterMap obsMapping) := by
  induction l with
  | nil => intro ts seen; simp [dedupFirstExcl]
  | cons a l ih =>
    intro ts seen
    simp only [List.foldl_cons, List.filterMap_cons]
    cases h : obsMapping a with
    | none => simp only [buildStep, h]; exact ih ts seen
    | some r =>
      by_cases hr : r ∈ seen
      · simp only [buildStep, h, if_pos hr, dedupFirstExcl]
        exact ih ts seen
      · simp only [buildStep, h, if_neg hr, dedupFirstExcl]
        rw [ih (ts ++ [r]) (r :: seen), List.append_assoc]
        simp

/-- **C5.** For every parsed header, the CodeMapper's RINEX2 target list
contains no duplicates; it equals the first-occurrence deduplication of the
translated GPS code list (so the first source code translating to a given
2-character code defines that code's position and later source codes mapping
to the same code add no column, while a source code absent from
`OBS_MAPPING` is dropped by the `filterMap` and contributes no column); every
target code originates from some declared source code; and the index mapping
is exactly the per-index table lookup. -/
theorem c5_code_mapper_invariants (h : Header) :
    ((buildObsTypeMapping (gpsCodes h)).1).Nodup
  ∧ (buildObsTypeMapping (gpsCodes h)).1 = dedupFirst ((gpsCodes h).filterMap obsMapping)
  ∧ (∀ t ∈ (buildObsTypeMapping (gpsCodes h)).1, t ∈ (gpsCodes h).filterMap obsMapping)
  ∧ (buildObsTypeMapping (gpsCodes h)).2 = (gpsCodes h).map obsMapping := by
  have hchar : (buildObsTypeMapping (gpsCodes h)).1
      = dedupFirst ((gpsCodes h).filterMap obsMapping) := by
    unfold buildObsTypeMapping dedupFirst
    simpa using foldl_buildStep (gpsCodes h) [] []
  refine ⟨?_, hchar, ?_, rfl⟩
  · rw [hchar]
    exact (dedupFirstExcl_nodup _ []).1
  · intro t ht
    rw [hchar] at ht
    exact dedupFirstExcl_sublist _ [] ht

theorem filterMap_obsMapping_nil (l : List String)
    (h : ∀ c ∈ l, obsMapping c = none) : l.filterMap obsMapping = [] := by
  induction l with
  | nil => rfl
  | cons a l ih =>
    rw [List.filterMap_cons, h a (List.mem_cons_self a l)]
    exact ih fun c hc => h c (List.mem_cons_of_mem a hc)

theorem buildObsTypeMapping_empty (gts : List String)
    (h : ∀ c ∈ gts, obsMapping c = none) : (buildObsTypeMapping gts).1 = [] := by
  unfold buildObsTypeMapping
  simp only []
  rw [foldl_buildStep gts [] [], filterMap_obsMapping_nil gts h]
  rfl

/-- **C3.** If the retained constellation `G` is absent from the parsed
header, or none of its declared codes has an entry in the translation table
(stated as: every declared GPS code looks up to `none`, which holds vacuously
when `G` is absent so `gpsCodes` is empty), the entry point returns the
failure value `False` and never opens the output file (output contents
`none`). -/
theorem c3_empty_mapping_fails (l0 : Str) (rest : List Str) (h : Header)
    (hv : versionStartsWith3 l0 = true)
    (hp : parseRinex3Header (l0 :: rest) = some h)
    (hnone : ∀ c ∈ gpsCodes h, obsMapping c = none) :
    convertRinex3ToRinex2 (l0 :: rest) = some (false, none) := by
  have hts : (buildObsTypeMapping (gpsCodes h)).1 = [] :=
    buildObsTypeMapping_empty _ hnone
  simp [convertRinex3ToRinex2, hv, hp, hts]

/-- Witness for C3: a concrete version-3 file whose only GPS code `ZZZ` is
untranslatable is rejected with no output file. -/
theorem c3_empty_mapping_fails_witness :
    versionStartsWith3 exVersion3Line = true
  ∧ parseRinex3Header exUnmappableInput = some exUnmappableHeader
  ∧ (∀ c ∈ gpsCodes exUnmappableHeader, obsMapping c = none)
  ∧ convertRinex3ToRinex2 exUnmappableInput = some (false, none) :=
  ⟨by decide, by decide, by decide,
   c3_empty_mapping_fails exVersion3Line [exSysLineZZZ] exUnmappableHeader
     (by decide) (by decide) (by decide)⟩

/-- **C4.** For every input file whose first line's version field (columns
0-8, stripped) does not start with the digit `3`, the entry point copies the
file: the output is byte-identical to the input (the concatenation of its
lines) and the result is success. -/
theorem c4_pass_through (l0 : Str) (rest : List Str)
    (hv : versionStartsWith3 l0 = false) :
    convertRinex3ToRinex2 (l0 :: rest) = some (true, some ((l0 :: rest).flatten)) := by
  simp [convertRinex3ToRinex2, hv]

/-- Witness for C4: a concrete version-2 file is copied unchanged with a
success result. -/
theorem c4_pass_through_witness :
    versionStartsWith3 "     2.11           OBSERVATION DATA\n".data = false
  ∧ convertRinex3ToRinex2 exVersion2Input
      = some (true, some exVersion2Input.flatten) :=
  ⟨by decide, c4_pass_through "     2.11           OBSERVATION DATA\n".data [] (by decide)⟩

theorem parseHeaderLoop_isSome (fuel : Nat) :
    ∀ ls : List Str, ∀ i : Nat, ∀ acc : Header,
      (∀ l ∈ ls, labelOf l = "SYS / # / OBS TYPES" →
        (parseInt (stripWs (pySlice l 3 6))).isSome = true) →
      (parseHeaderLoop fuel ls i acc).isSome = true := by
  induction fuel with
  | zero => intro ls i acc _; simp [parseHeaderLoop]
  | succ fuel ih =>
    intro ls i acc hs
    cases ls with
    | nil => simp [parseHeaderLoop]
    | cons line rest =>
      simp only [parseHeaderLoop]
      by_cases hsys : labelOf line = "SYS / # / OBS TYPES"
      · rw [if_pos hsys]
        have hcount := hs line (List.mem_cons_self line rest) hsys
        cases hpi : parseInt (stripWs (pySlice line 3 6)) with
        | none => rw [hpi] at hcount; simp at hcount
        | some n =>
          simp only [hpi]
          exact ih _ _ _ fun l hl => hs l (List.mem_cons_of_mem line (List.drop_subset _ _ hl))
      · rw [if_neg hsys]
        by_cases hend : labelOf line = "END OF HEADER"
        · simp [hend]
        · rw [if_neg hend]
          exact ih _ _ _ fun l hl => hs l (List.mem_cons_of_mem line hl)

/-- Counterexample for C2: a concrete version-3 input whose observation-type
declaration carries a non-numeric count field makes the bare
`int(line[3:6].strip())` raise an uncaught `ValueError` (modelled `none`), so
the entry point does not terminate with a boolean result and the numeric
parse failure in this header field is not absorbed. -/
theorem c2_uncaught_count_exception :
    labelOf exSysLineBadCount = "SYS / # / OBS TYPES"
  ∧ parseInt (stripWs (pySlice exSysLineBadCount 3 6)) = none
  ∧ convertRinex3ToRinex2 exBadCountInput = none := by
  refine ⟨by decide, by decide, ?_⟩
  decide

/-- **C2 (amended).** The entry point terminates with a boolean result for
every non-empty input whose `SYS / # / OBS TYPES`-labelled lines all carry a
numeric count field; under that proviso every other numeric parse failure in
header metadata (approximate position, antenna offsets, interval) is absorbed
internally with the field keeping its default.  (As the counterexample shows,
a non-numeric observation-type count — and likewise an empty input file —
escapes as an exception instead of a boolean.) -/
theorem c2_total_on_numeric_counts (l0 : Str) (rest : List Str)
    (hs : ∀ l ∈ l0 :: rest, labelOf l = "SYS / # / OBS TYPES" →
      (parseInt (stripWs (pySlice l 3 6))).isSome = true) :
    (convertRinex3ToRinex2 (l0 :: rest)).isSome = true := by
  simp only [convertRinex3ToRinex2]
  cases hv : versionStartsWith3 l0 with
  | false => simp
  | true =>
    simp only [Bool.true_eq_false, if_false]
    have hp : (parseRinex3Header (l0 :: rest)).isSome = true :=
      parseHeaderLoop_isSome _ _ _ _ hs
    cases hph : parseRinex3Header (l0 :: rest) with
    | none => rw [hph] at hp; simp at hp
    | some h =>
      simp only []
      split <;> simp

/-- Witness for C2 (amended): a concrete input with a malformed `INTERVAL`
numeric zone but numeric observation-type counts terminates with a boolean
(and the malformed interval is absorbed: the parsed header keeps the default
interval 30.0). -/
theorem c2_total_on_numeric_counts_witness :
    (∀ l ∈ exBadIntervalInput, labelOf l = "SYS / # / OBS TYPES" →
      (parseInt (stripWs (pySlice l 3 6))).isSome = true)
  ∧ (convertRinex3ToRinex2 exBadIntervalInput).isSome = true
  ∧ (parseRinex3Header exBadIntervalInput).map Header.interval = some 30 :=
  ⟨by decide,
   c2_total_on_numeric_counts exVersion3Line [exBadIntervalLine, exSysLineC1C] (by decide),
   by decide⟩

theorem dispatchSimple_header_end_line (line : Str) (lbl : String) (h : Header) :
    (dispatchSimple line lbl h).header_end_line = h.header_end_line := by
  unfold dispatchSimple
  by_cases h1 : lbl = "RINEX VERSION / TYPE"
  · rw [if_pos h1]
  rw [if_neg h1]
  by_cases h2 : lbl = "MARKER NAME"
  · rw [if_pos h2]
  rw [if_neg h2]
  by_cases h3 : lbl = "MARKER NUMBER"
  · rw [if_pos h3]
  rw [if_neg h3]
  by_cases h4 : lbl = "OBSERVER / AGENCY"
  · rw [if_pos h4]
  rw [if_neg h4]
  by_cases h5 : lbl = "REC # / TYPE / VERS"
  · rw [if_pos h5]
  rw [if_neg h5]
  by_cases h6 : lbl = "ANT # / TYPE"
  · rw [if_pos h6]
  rw [if_neg h6]
  by_cases h7 : lbl = "APPROX POSITION XYZ"
  · rw [if_pos h7]
    split <;> rfl
  rw [if_neg h7]
  by_cases h8 : lbl = "ANTENNA: DELTA H/E/N"
  · rw [if_pos h8]
    split <;> rfl
  rw [if_neg h8]
  by_cases h9 : lbl = "INTERVAL"
  · rw [if_pos h9]
    split <;> rfl
  rw [if_neg h9]
  by_cases h10 : lbl = "TIME OF FIRST OBS"
  · rw [if_pos h10]
  rw [if_neg h10]
  by_cases h11 : lbl = "TIME OF LAST OBS"
  · rw [if_pos h11]
  rw [if_neg h11]

theorem parseHeaderLoop_header_end_line (fuel : Nat) :
    ∀ ls : List Str, ∀ i : Nat, ∀ acc : Header, ∀ h : Header,
      (∀ l ∈ ls, labelOf l ≠ "END OF HEADER") →
      parseHeaderLoop fuel ls i acc = some h →
      h.header_end_line = acc.header_end_line := by
  induction fuel with
  | zero =>
    intro ls i acc h _ hp
    simp only [parseHeaderLoop, Option.some.injEq] at hp
    rw [← hp]
  | succ fuel ih =>
    intro ls i acc h hnoend hp
    cases ls with
    | nil =>
      simp only [parseHeaderLoop, Option.some.injEq] at hp
      rw [← hp]
    | cons line rest =>
      simp only [parseHeaderLoop] at hp
      by_cases hsys : labelOf line = "SYS / # / OBS TYPES"
      · rw [if_pos hsys] at hp
        cases hpi : parseInt (stripWs (pySlice line 3 6)) with
        | none => rw [hpi] at hp; simp at hp
        | some n =>
          simp only [hpi] at hp
          have hstep := ih _ _ _ _
            (fun l hl => hnoend l (List.mem_cons_of_mem line (List.drop_subset _ _ hl))) hp
          exact hstep
      · rw [if_neg hsys] at hp
        have hend : labelOf line ≠ "END OF HEADER" :=
          hnoend line (List.mem_cons_self line rest)
        rw [if_neg hend] at hp
        have := ih _ _ _ _ (fun l hl => hnoend l (List.mem_cons_of_mem line hl)) hp
        rw [this, dispatchSimple_header_end_line]

/-- Counterexample for C1: a concrete version-3 input with no
`END OF HEADER` record anywhere is not treated as fatal — the entry point
reports success and writes an output file. -/
theorem c1_no_terminator_not_fatal :
    exNoTermInput.all (fun l => !(labelOf l == "END OF HEADER")) = true
  ∧ (convertRinex3ToRinex2 exNoTermInput).map (fun r => (r.1, r.2.isSome))
      = some (true, true) := by
  refine ⟨by decide, ?_⟩
  decide

/-- **C1 (amended).** A version-3 input with no header-terminator record is
not a fatal error: the parse runs off the end of the input, the header/data
boundary keeps its default value 0, and conversion proceeds — succeeding and
writing an output file whenever the code mapping is non-empty (the entry
point fails only on an empty mapping). -/
theorem c1_no_terminator_boundary_zero (l0 : Str) (rest : List Str) (h : Header)
    (hnoend : ∀ l ∈ l0 :: rest, labelOf l ≠ "END OF HEADER")
    (hv : versionStartsWith3 l0 = true)
    (hp : parseRinex3Header (l0 :: rest) = some h)
    (hts : (buildObsTypeMapping (gpsCodes h)).1 ≠ []) :
    h.header_end_line = 0
  ∧ (convertRinex3ToRinex2 (l0 :: rest)).map (fun r => (r.1, r.2.isSome))
      = some (true, true) := by
  constructor
  · exact parseHeaderLoop_header_end_line _ _ _ _ _ hnoend hp
  · simp [convertRinex3ToRinex2, hv, hp, hts]

/-- Witness for C1 (amended): the concrete no-terminator input parses to a
header with boundary 0 and converts successfully with output written. -/
theorem c1_no_terminator_boundary_zero_witness :
    parseRinex3Header exNoTermInput = some exNoTermHeader
  ∧ exNoTermHeader.header_end_line = 0
  ∧ (convertRinex3ToRinex2 exNoTermInput).map (fun r => (r.1, r.2.isSome))
      = some (true, true) :=
  ⟨by decide,
   (c1_no_terminator_boundary_zero exVersion3Line [exSysLineC1C] exNoTermHeader
     (by decide) (by decide) (by decide) (by decide)).1,
   (c1_no_terminator_boundary_zero exVersion3Line [exSysLineC1C] exNoTermHeader
     (by decide) (by decide) (by decide) (by decide)).2⟩

theorem scanCont_break (n : Int) :
    ∀ conts : List Str, ∀ toks : List String, ∀ lnB : Str, ∀ rest : List Str,
      (∀ c ∈ conts, labelOf c = "SYS / # / OBS TYPES") →
      labelOf lnB ≠ "SYS / # / OBS TYPES" →
      ((toks ++ conts.flatMap (fun c => splitWs (pySlice c 7 60))).length : Int) < n →
      scanCont n toks (conts ++ lnB :: rest)
        = (toks ++ conts.flatMap (fun c => splitWs (pySlice c 7 60)), conts.length + 1) := by
  intro conts
  induction conts with
  | nil =>
    intro toks lnB rest _ hB hshort
    simp only [List.flatMap_nil, List.append_nil] at hshort ⊢
    simp only [List.nil_append, scanCont]
    rw [if_pos hshort, if_neg hB]
    rfl
  | cons c cs ih =>
    intro toks lnB rest hall hB hshort
    have hc : labelOf c = "SYS / # / OBS TYPES" := hall c (List.mem_cons_self c cs)
    have hshort' : ((toks ++ splitWs (pySlice c 7 60)
        ++ cs.flatMap (fun x => splitWs (pySlice x 7 60))).length : Int) < n := by
      rw [List.append_assoc]
      simpa [List.flatMap_cons] using hshort
    have htoks : (toks.length : Int) < n := by
      have hle : toks.length
          ≤ (toks ++ (c :: cs).flatMap (fun x => splitWs (pySlice x 7 60))).length := by
        simp [List.length_append]
      omega
    simp only [List.cons_append, scanCont, List.append_eq]
    rw [if_pos htoks, if_pos hc,
      ih (toks ++ splitWs (pySlice c 7 60)) lnB rest
        (fun x hx => hall x (List.mem_cons_of_mem c hx)) hB hshort']
    simp [List.flatMap_cons, List.append_assoc]

/-- **C10.** When an observation-type declaration declares more codes than
its own line and its same-labelled continuation lines supply, the first
differently-labelled line that ends the continuation scan is itself consumed
by the scan: the parse loop resumes *after* it, so that line's header record
is never dispatched and the field it would have set keeps its current
(default) value.  The collected tokens contain nothing from the breaking
line. -/
theorem c10_breaker_line_consumed (fuel i : Nat) (acc : Header)
    (sysLine lnB : Str) (conts rest : List Str) (n : Int)
    (hsys : labelOf sysLine = "SYS / # / OBS TYPES")
    (hn : parseInt (stripWs (pySlice sysLine 3 6)) = some n)
    (hconts : ∀ c ∈ conts, labelOf c = "SYS / # / OBS TYPES")
    (hB : labelOf lnB ≠ "SYS / # / OBS TYPES")
    (hshort : ((splitWs (pySlice sysLine 7 60)
        ++ conts.flatMap (fun c => splitWs (pySlice c 7 60))).length : Int) < n) :
    parseHeaderLoop (fuel + 1) (sysLine :: (conts ++ lnB :: rest)) i acc
      = parseHeaderLoop fuel rest (i + 1 + (conts.length + 1))
          { acc with obs_types := (dictInsert (String.mk (pySlice sysLine 0 1))
              (pyTakeInt n (splitWs (pySlice sysLine 7 60)
                ++ conts.flatMap (fun c => splitWs (pySlice c 7 60))))
              acc.obs_types) } := by
  simp only [parseHeaderLoop]
  rw [if_pos hsys]
  simp only [hn]
  rw [scanCont_break n conts _ lnB rest hconts hB hshort]
  have hdrop : (conts ++ lnB :: rest).drop (conts.length + 1) = rest := by
    have : conts ++ lnB :: rest = (conts ++ [lnB]) ++ rest := by simp
    rw [this, List.drop_left' (by simp)]
  rw [hdrop]

/-- Witness for C10: a declaration announcing 5 codes but supplying one,
immediately followed by an `INTERVAL` record, consumes the `INTERVAL` line
during the scan; parsing the whole file leaves the interval at its default
30.0. -/
theorem c10_breaker_line_consumed_witness :
    labelOf ("G    5 C1C".data ++ List.replicate 50 ' ' ++ "SYS / # / OBS TYPES".data)
        = "SYS / # / OBS TYPES"
  ∧ parseInt (stripWs (pySlice ("G    5 C1C".data ++ List.replicate 50 ' '
        ++ "SYS / # / OBS TYPES".data) 3 6)) = some 5
  ∧ labelOf ("    15.000".data ++ List.replicate 50 ' ' ++ "INTERVAL".data) ≠ "SYS / # / OBS TYPES"
  ∧ parseHeaderLoop 2 (("G    5 C1C".data ++ List.replicate 50 ' '
        ++ "SYS / # / OBS TYPES".data)
        :: ([] ++ ("    15.000".data ++ List.replicate 50 ' ' ++ "INTERVAL".data) :: [])) 0 initHeader
      = parseHeaderLoop 1 [] (0 + 1 + ((List.length ([] : List Str)) + 1))
          { initHeader with obs_types := (dictInsert
              (String.mk (pySlice ("G    5 C1C".data ++ List.replicate 50 ' '
                ++ "SYS / # / OBS TYPES".data) 0 1))
              (pyTakeInt 5 (splitWs (pySlice ("G    5 C1C".data ++ List.replicate 50 ' '
                ++ "SYS / # / OBS TYPES".data) 7 60)
                ++ ([] : List Str).flatMap (fun c => splitWs (pySlice c 7 60))))
              initHeader.obs_types) }
  ∧ (parseRinex3Header [("G    5 C1C".data ++ List.replicate 50 ' '
        ++ "SYS / # / OBS TYPES".data),
        ("    15.000".data ++ List.replicate 50 ' ' ++ "INTERVAL".data)]).map Header.interval
      = some 30 :=
  ⟨by decide, by decide, by decide,
   c10_breaker_line_consumed 1 0 initHeader
     ("G    5 C1C".data ++ List.replicate 50 ' ' ++ "SYS / # / OBS TYPES".data)
     ("    15.000".data ++ List.replicate 50 ' ' ++ "INTERVAL".data) [] [] 5
     (by decide) (by decide) (by decide) (by decide) (by decide),
   by decide⟩

theorem convertData_step_nonepoch (gts rts : List String) (mapping : List (Option String))
    (line : Str) (rest : List Str) (hgt : startsGt line = false) :
    convertData gts rts mapping (line :: rest) = convertData gts rts mapping rest := by
  simp [convertData, hgt]

theorem convertData_step_badepoch (gts rts : List String) (mapping : List (Option String))
    (line : Str) (rest : List Str) (hgt : startsGt line = true)
    (hp : parseEpochStart line = none) :
    convertData gts rts mapping (line :: rest) = convertData gts rts mapping rest := by
  simp [convertData, hgt, hp]

theorem convertData_step_epoch (gts rts : List String) (mapping : List (Option String))
    (line : Str) (rest : List Str) (e : EpochHead) (hgt : startsGt line = true)
    (hp : parseEpochStart line = some e) :
    convertData gts rts mapping (line :: rest)
      = if collectSats gts (rest.take e.numSats.toNat) = []
        then convertData gts rts mapping (rest.drop e.numSats.toNat)
        else epochChunk gts rts mapping e (collectSats gts (rest.take e.numSats.toNat))
          ++ convertData gts rts mapping (rest.drop e.numSats.toNat) := by
  simp [convertData, hgt, hp]

theorem collectSats_all_gps (gts : List String) (satLines : List Str) :
    ∀ p ∈ collectSats gts satLines, startsWithG p.1 = true := by
  intro p hp
  simp only [collectSats, List.mem_filterMap] at hp
  obtain ⟨sl, _, hsl⟩ := hp
  by_cases hg : startsWithG (stripWs (pySlice sl 0 3)) = true
  · simp only [hg, if_true, Option.some.injEq] at hsl
    rw [← hsl]
    exact hg
  · simp only [Bool.not_eq_true] at hg
    simp [hg] at hsl

/-- **C7.** For every epoch the transcoder emits: every satellite id in the
retained pair list (and hence in the emitted epoch header) has the `G`
prefix; an epoch whose declared satellite lines contain zero retained
satellites produces no output at all (the scan continues directly after the
consumed lines); and an epoch with retained satellites emits its chunk whose
first written string is the epoch-header line built over exactly the retained
ids with the count field `fmtInt 3` of the number of ids actually emitted. -/
theorem c7_satellite_filtering (gts rts : List String) (mapping : List (Option String))
    (line : Str) (rest : List Str) (e : EpochHead)
    (hgt : startsGt line = true)
    (hp : parseEpochStart line = some e) :
    (∀ p ∈ collectSats gts (rest.take e.numSats.toNat), startsWithG p.1 = true)
  ∧ (collectSats gts (rest.take e.numSats.toNat) = [] →
      convertData gts rts mapping (line :: rest)
        = convertData gts rts mapping (rest.drop e.numSats.toNat))
  ∧ (collectSats gts (rest.take e.numSats.toNat) ≠ [] →
      convertData gts rts mapping (line :: rest)
        = epochChunk gts rts mapping e (collectSats gts (rest.take e.numSats.toNat))
          ++ convertData gts rts mapping (rest.drop e.numSats.toNat))
  ∧ (epochChunk gts rts mapping e (collectSats gts (rest.take e.numSats.toNat))).head?
      = some (satIdsAppend
          (epochHdrBase e ((collectSats gts (rest.take e.numSats.toNat)).map Prod.fst).length)
          ((collectSats gts (rest.take e.numSats.toNat)).map Prod.fst) ++ ['\n']) := by
  refine ⟨collectSats_all_gps gts _, ?_, ?_, ?_⟩
  · intro hnil
    rw [convertData_step_epoch gts rts mapping line rest e hgt hp, if_pos hnil]
  · intro hne
    rw [convertData_step_epoch gts rts mapping line rest e hgt hp, if_neg hne]
  · rfl

/-- Witness for C7: a concrete epoch declaring two satellites of which one is
GPS retains exactly `G01`, and the emitted chunk head is the epoch-header
line with count 1; an epoch declaring only `R01` produces no output. -/
theorem c7_satellite_filtering_witness :
    startsGt "> 2024 01 01 00 00  0.0000000  0  2".data = true
  ∧ parseEpochStart "> 2024 01 01 00 00  0.0000000  0  2".data
      = some ⟨2024, 1, 1, 0, 0, 0, 0, 2⟩
  ∧ (∀ p ∈ collectSats ["C1C"]
        (["G01  20000000.000".data, "R01  21000000.000".data].take (2 : Int).toNat),
      startsWithG p.1 = true)
  ∧ convertData ["C1C"] ["C1"] [some "C1"]
        ("> 2024 01 01 00 00  0.0000000  0  2".data
          :: ["G01  20000000.000".data, "R01  21000000.000".data])
      = epochChunk ["C1C"] ["C1"] [some "C1"] ⟨2024, 1, 1, 0, 0, 0, 0, 2⟩
          (collectSats ["C1C"]
            (["G01  20000000.000".data, "R01  21000000.000".data].take (2 : Int).toNat))
        ++ convertData ["C1C"] ["C1"] [some "C1"]
            (["G01  20000000.000".data, "R01  21000000.000".data].drop (2 : Int).toNat)
  ∧ convertData ["C1C"] ["C1"] [some "C1"]
        ("> 2024 01 01 00 00  0.0000000  0  1".data :: ["R01  21000000.000".data])
      = convertData ["C1C"] ["C1"] [some "C1"]
          (["R01  21000000.000".data].drop (1 : Int).toNat) :=
  ⟨by decide, by decide,
   (c7_satellite_filtering ["C1C"] ["C1"] [some "C1"]
      "> 2024 01 01 00 00  0.0000000  0  2".data
      ["G01  20000000.000".data, "R01  21000000.000".data]
      ⟨2024, 1, 1, 0, 0, 0, 0, 2⟩ (by decide) (by decide)).1,
   (c7_satellite_filtering ["C1C"] ["C1"] [some "C1"]
      "> 2024 01 01 00 00  0.0000000  0  2".data
      ["G01  20000000.000".data, "R01  21000000.000".data]
      ⟨2024, 1, 1, 0, 0, 0, 0, 2⟩ (by decide) (by decide)).2.2.1 (by decide),
   (c7_satellite_filtering ["C1C"] ["C1"] [some "C1"]
      "> 2024 01 01 00 00  0.0000000  0  1".data
      ["R01  21000000.000".data]
      ⟨2024, 1, 1, 0, 0, 0, 0, 1⟩ (by decide) (by decide)).2.1 (by decide)⟩

/-- **C9.** A corrupted epoch-start line (leading `>` but non-numeric
timestamp fields) embedded between two well-formed epochs is skipped:
the output consists of exactly the two well-formed epochs' chunks, in order,
with nothing emitted for the corrupted line.  A block is well formed here
when its epoch-start line parses, it is followed by exactly the declared
number of satellite lines, and at least one satellite is retained. -/
theorem c9_malformed_epoch_recovery (gts rts : List String) (mapping : List (Option String))
    (e1 e2 bad : Str) (sls1 sls2 : List Str) (h1 h2 : EpochHead)
    (hgt1 : startsGt e1 = true) (hp1 : parseEpochStart e1 = some h1)
    (hlen1 : sls1.length = h1.numSats.toNat)
    (hne1 : collectSats gts sls1 ≠ [])
    (hgt2 : startsGt e2 = true) (hp2 : parseEpochStart e2 = some h2)
    (hlen2 : sls2.length = h2.numSats.toNat)
    (hne2 : collectSats gts sls2 ≠ [])
    (hbgt : startsGt bad = true) (hbp : parseEpochStart bad = none) :
    convertData gts rts mapping (e1 :: (sls1 ++ bad :: e2 :: sls2))
      = epochChunk gts rts mapping h1 (collectSats gts sls1)
        ++ epochChunk gts rts mapping h2 (collectSats gts sls2) := by
  rw [convertData_step_epoch gts rts mapping e1 _ h1 hgt1 hp1]
  have htake1 : (sls1 ++ bad :: e2 :: sls2).take h1.numSats.toNat = sls1 := by
    rw [← hlen1]; exact List.take_left _ _
  have hdrop1 : (sls1 ++ bad :: e2 :: sls2).drop h1.numSats.toNat = bad :: e2 :: sls2 := by
    rw [← hlen1]; exact List.drop_left _ _
  rw [htake1, hdrop1, if_neg hne1,
    convertData_step_badepoch gts rts mapping bad _ hbgt hbp,
    convertData_step_epoch gts rts mapping e2 _ h2 hgt2 hp2]
  have htake2 : sls2.take h2.numSats.toNat = sls2 := by
    rw [← hlen2]; exact List.take_length sls2
  have hdrop2 : sls2.drop h2.numSats.toNat = [] := by
    rw [← hlen2]; exact List.drop_length sls2
  rw [htake2, hdrop2, if_neg hne2]
  simp [convertData]

/-- Witness for C9: two concrete one-satellite epochs separated by a
corrupted epoch-start line (year field `20XX`) transcode to exactly the two
epochs' chunks. -/
theorem c9_malformed_epoch_recovery_witness :
    startsGt "> 20XX 01 01 00 15  0.0000000  0  1".data = true
  ∧ parseEpochStart "> 20XX 01 01 00 15  0.0000000  0  1".data = none
  ∧ convertData ["C1C"] ["C1"] [some "C1"]
      ("> 2024 01 01 00 00  0.0000000  0  1".data
        :: (["G01  20000000.000".data]
          ++ "> 20XX 01 01 00 15  0.0000000  0  1".data
            :: "> 2024 01 01 00 30  0.0000000  0  1".data
            :: ["G02  21000000.000".data]))
      = epochChunk ["C1C"] ["C1"] [some "C1"] ⟨2024, 1, 1, 0, 0, 0, 0, 1⟩
          (collectSats ["C1C"] ["G01  20000000.000".data])
        ++ epochChunk ["C1C"] ["C1"] [some "C1"] ⟨2024, 1, 1, 0, 30, 0, 0, 1⟩
            (collectSats ["C1C"] ["G02  21000000.000".data]) :=
  ⟨by decide, by decide,
   c9_malformed_epoch_recovery ["C1C"] ["C1"] [some "C1"]
     "> 2024 01 01 00 00  0.0000000  0  1".data
     "> 2024 01 01 00 30  0.0000000  0  1".data
     "> 20XX 01 01 00 15  0.0000000  0  1".data
     ["G01  20000000.000".data] ["G02  21000000.000".data]
     ⟨2024, 1, 1, 0, 0, 0, 0, 1⟩ ⟨2024, 1, 1, 0, 30, 0, 0, 1⟩
     (by decide) (by decide) (by decide) (by decide)
     (by decide) (by decide) (by decide) (by decide)
     (by decide) (by decide)⟩

theorem fmtTriple_length (v : Str) : (fmtTriple v).length = 16 := by
  unfold fmtTriple
  dsimp only
  generalize rstripWs v = s
  split
  · split <;> split <;>
      simp [pySlice, blank16, List.length_append, List.length_take, List.length_drop] <;> omega
  · split
    · simp [rjust, List.length_append, List.length_replicate]
      omega
    · simp [blank16]

theorem emitObsLines_length_aux (n : Nat) :
    ∀ L : List Str, L.length ≤ n → (emitObsLines L).length = (L.length + 4) / 5 := by
  induction n with
  | zero =>
    intro L hL
    have : L = [] := List.eq_nil_of_length_eq_zero (Nat.le_zero.mp hL)
    subst this
    simp [emitObsLines]
  | succ n ih =>
    intro L hL
    cases L with
    | nil => simp [emitObsLines]
    | cons t ts =>
      rw [emitObsLines]
      have hrec := ih (ts.drop 4)
        (by simp only [List.length_drop]; simp only [List.length_cons] at hL; omega)
      simp only [List.length_cons, hrec, List.length_drop]
      omega

theorem emitObsLines_length (L : List Str) :
    (emitObsLines L).length = (L.length + 4) / 5 :=
  emitObsLines_length_aux L.length L (Nat.le_refl _)

theorem rnx2Values_getD (gts rts : List String) (mapping : List (Option String))
    (values : List Str) (i : Nat) (hi : i < rts.length) :
    (rnx2Values gts mapping values rts).getD i []
      = match firstMappedIdx gts mapping (rts.getD i "") with
        | some idx => values.getD idx blank16
        | none => blank16 := by
  simp only [rnx2Values, List.getD_eq_getElem?_getD, List.getElem?_map,
    List.getElem?_eq_getElem hi]
  rfl

theorem satValues_short (gts : List String) (satLine : Str) (k : Nat)
    (hk : k < gts.length) (hs : satLine.length ≤ 3 + k * 16) :
    (satValues gts satLine).getD k [] = blank16 := by
  simp only [satValues, List.getD_eq_getElem?_getD, List.getElem?_map]
  rw [List.getElem?_range hk]
  simp only [Option.map_some', Option.getD_some]
  rw [if_neg (by omega)]

/-- **C6.** For every satellite record: the `rnx2_values` list has exactly one
entry per distinct target code (so the number of 16-column triples written is
the number of target codes — `emitObsLines` packs them five per line into
`⌈n/5⌉` physical lines); every formatted triple is exactly 16 columns
(14+1+1, blank-padded when the raw slice is short); the value for the target
code at position `i` is sliced from the field at the *first* source index
mapping to that code, out-of-range indices (`values.getD idx blank16`) and
absent mappings yielding a blank field; and a raw record too short for slot
`k` yields a blank field rather than an error. -/
theorem c6_field_slot_integrity (gts rts : List String) (mapping : List (Option String))
    (values : List Str) :
    (rnx2Values gts mapping values rts).length = rts.length
  ∧ (∀ t ∈ (rnx2Values gts mapping values rts).map fmtTriple, t.length = 16)
  ∧ (emitObsLines ((rnx2Values gts mapping values rts).map fmtTriple)).length
      = (rts.length + 4) / 5
  ∧ (∀ i, i < rts.length →
      (rnx2Values gts mapping values rts).getD i []
        = match firstMappedIdx gts mapping (rts.getD i "") with
          | some idx => values.getD idx blank16
          | none => blank16)
  ∧ (∀ satLine : Str, ∀ k, k < gts.length → satLine.length ≤ 3 + k * 16 →
      (satValues gts satLine).getD k [] = blank16) := by
  refine ⟨by simp [rnx2Values], ?_, ?_, ?_, ?_⟩
  · intro t ht
    obtain ⟨v, _, rfl⟩ := List.mem_map.mp ht
    exact fmtTriple_length v
  · rw [emitObsLines_length]
    simp [rnx2Values]
  · intro i hi
    exact rnx2Values_getD gts rts mapping values i hi
  · intro satLine k hk hs
    exact satValues_short gts satLine k hk hs

/-- Witness for C6: with three GPS codes of which the first two both map to
`C1`, the `C1` slot takes the field of source index 0; a 3-column raw record
yields a blank field for slot 0. -/
theorem c6_field_slot_integrity_witness :
    (0 : Nat) < (["C1", "L1"] : List String).length
  ∧ (rnx2Values ["C1C", "C1S", "L1C"] [some "C1", some "C1", some "L1"]
        [['a'], ['b'], ['c']] ["C1", "L1"]).getD 0 []
      = (match firstMappedIdx ["C1C", "C1S", "L1C"] [some "C1", some "C1", some "L1"]
            ((["C1", "L1"] : List String).getD 0 "") with
          | some idx => ([['a'], ['b'], ['c']] : List Str).getD idx blank16
          | none => blank16)
  ∧ "G01".data.length ≤ 3 + 0 * 16
  ∧ (satValues ["C1C", "C1S", "L1C"] "G01".data).getD 0 [] = blank16 :=
  ⟨by decide,
   (c6_field_slot_integrity ["C1C", "C1S", "L1C"] ["C1", "L1"]
      [some "C1", some "C1", some "L1"] [['a'], ['b'], ['c']]).2.2.2.1 0 (by decide),
   by decide,
   (c6_field_slot_integrity ["C1C", "C1S", "L1C"] ["C1", "L1"]
      [some "C1", some "C1", some "L1"] [['a'], ['b'], ['c']]).2.2.2.2 "G01".data 0
     (by decide) (by decide)⟩

theorem obsTypesAux_cons (pre : Str) (ts : List String) (h : ts ≠ []) :
    obsTypesAux pre ts
      = obsTypesLine pre (ts.take 9)
        :: obsTypesAux (List.replicate 6 ' ') (ts.drop 9) := by
  cases ts with
  | nil => exact absurd rfl h
  | cons c cs =>
    simp only [obsTypesAux, List.take_succ_cons, List.drop_succ_cons]

/-- **C8.** Continuation wrapping, in both places it occurs.  A 23-entry code
list produces exactly 3 physical `# / TYPES OF OBSERV` lines carrying 9, 9
and 5 codes, the first with the count `23` in the 6-column count zone and the
continuation lines with a blank count zone.  A 25-entry satellite-id list
appended to any epoch-header base wraps after every 12 ids into a
continuation line indented to column 32, producing exactly 3 physical lines
carrying 12, 12 and 1 ids. -/
theorem c8_continuation_wrapping (ts : List String) (base : Str) (sats : List Str)
    (hts : ts.length = 23) (hsats : sats.length = 25) :
    (obsTypesLines ts
        = [obsTypesLine (fmtInt 6 23) (ts.take 9),
           obsTypesLine (List.replicate 6 ' ') ((ts.drop 9).take 9),
           obsTypesLine (List.replicate 6 ' ') ((ts.drop 9).drop 9)]
      ∧ (ts.take 9).length = 9 ∧ ((ts.drop 9).take 9).length = 9
      ∧ ((ts.drop 9).drop 9).length = 5)
  ∧ (satIdsAppend base sats
        = base ++ satIdsJoin (sats.take 12)
          ++ ('\n' :: List.replicate 32 ' ') ++ satIdsJoin ((sats.drop 12).take 12)
          ++ ('\n' :: List.replicate 32 ' ') ++ satIdsJoin ((sats.drop 12).drop 12)
      ∧ (sats.take 12).length = 12 ∧ ((sats.drop 12).take 12).length = 12
      ∧ ((sats.drop 12).drop 12).length = 1) := by
  constructor
  · have h1 : ts ≠ [] := by
      intro e; rw [e] at hts; simp at hts
    have h2 : ts.drop 9 ≠ [] := by
      intro e
      have := congrArg List.length e
      simp [List.length_drop, hts] at this
    have h3 : (ts.drop 9).drop 9 ≠ [] := by
      intro e
      have := congrArg List.length e
      simp [List.length_drop, hts] at this
    have h4 : (((ts.drop 9).drop 9)).drop 9 = [] := by
      apply List.drop_eq_nil_of_le
      simp [List.length_drop, hts]
    have h5 : ((ts.drop 9).drop 9).take 9 = (ts.drop 9).drop 9 := by
      apply List.take_of_length_le
      simp [List.length_drop, hts]
    refine ⟨?_, by simp [List.length_take, hts],
      by simp [List.length_take, List.length_drop, hts],
      by simp [List.length_drop, hts]⟩
    rw [obsTypesLines, obsTypesAux_cons _ _ h1, obsTypesAux_cons _ _ h2,
      obsTypesAux_cons _ _ h3, h4, h5, hts]
    simp [obsTypesAux]
  · match sats, hsats with
    | [b0, b1, b2, b3, b4, b5, b6, b7, b8, b9, b10, b11, b12, b13, b14, b15, b16, b17, b18, b19, b20, b21, b22, b23, b24], _ =>
      refine ⟨?_, by simp, by simp, by simp⟩
      simp [satIdsAppend, satIdsJoin, List.enum, List.enumFrom, List.foldl,
        List.append_assoc]

/-- Witness for C8: the wrapping shapes at a concrete 23-entry code list and
a concrete 25-entry satellite-id list. -/
theorem c8_continuation_wrapping_witness :
    (exCodes23.length = 23 ∧ exSats25.length = 25)
  ∧ ((obsTypesLines exCodes23
        = [obsTypesLine (fmtInt 6 23) (exCodes23.take 9),
           obsTypesLine (List.replicate 6 ' ') ((exCodes23.drop 9).take 9),
           obsTypesLine (List.replicate 6 ' ') ((exCodes23.drop 9).drop 9)]
      ∧ (exCodes23.take 9).length = 9 ∧ ((exCodes23.drop 9).take 9).length = 9
      ∧ ((exCodes23.drop 9).drop 9).length = 5)
    ∧ (satIdsAppend "HDR".data exSats25
        = "HDR".data ++ satIdsJoin (exSats25.take 12)
          ++ ('\n' :: List.replicate 32 ' ') ++ satIdsJoin ((exSats25.drop 12).take 12)
          ++ ('\n' :: List.replicate 32 ' ') ++ satIdsJoin ((exSats25.drop 12).drop 12)
      ∧ (exSats25.take 12).length = 12 ∧ ((exSats25.drop 12).take 12).length = 12
      ∧ ((exSats25.drop 12).drop 12).length = 1)) :=
  ⟨⟨by decide, by decide⟩,
   c8_continuation_wrapping exCodes23 "HDR".data exSats25 (by decide) (by decide)⟩
